import Mathlib

/-!
Verification of the dataset discovery and access layer of
`maplibre-gl-usgs-lidar`.

The TypeScript sources are shallowly embedded: JavaScript numbers that the
code only compares and min/max-folds are modelled as rationals (`ℚ`);
where the code explicitly branches on `Number.isFinite`, a number is
modelled as `Option ℚ` with `none` standing for a non-finite value
(`NaN`, `Infinity`, `-Infinity`).  Asynchronous, fallible operations are
modelled as `Except`-valued functions taking the outcome of the network
interaction as an explicit argument, and instance state is threaded
explicitly.
-/

/-- A 4-element bounding box `[west, south, east, north]` in degrees. -/
structure Bbox4 where
  west : ℚ
  south : ℚ
  east : ℚ
  north : ℚ
deriving DecidableEq, Repr

/-- Placeholder for GeoJSON coordinate structure: a leaf position
(`typeof coords[0] === 'number'`, the code reads `coords[0]`/`coords[1]`)
or a nested array of coordinate structures. -/
inductive CoordTree where
  | point (x y : ℚ)
  | arr (children : List CoordTree)

/-- A GeoJSON geometry: the code only looks at its `coordinates` member
(`'coordinates' in geometry`); `none` models a geometry without one. -/
structure Geometry where
  coordinates : Option CoordTree

/-- An EPT boundary feature as held in `EptSearcher._features`
(`src/src/lib/ept/EptSearcher.ts`): `properties.name`, `properties.count`,
`properties.url`, a geometry and an optional bounding box. -/
structure EptFeature where
  name : String
  count : ℚ
  url : String
  geometry : Geometry
  bbox : Option Bbox4

/-- The shape of `EptSearchResponse` (`type: 'FeatureCollection'` is
constant and omitted). -/
structure EptSearchResponse where
  features : List EptFeature
  numberMatched : Nat

namespace EptSearcher

/-- The bbox intersection test of `EptSearcher.searchByExtent`
(`EptSearcher.ts:215`): with `[fWest, fSouth, fEast, fNorth] = f.bbox` and
`[west, south, east, north] = bbox`,
`!(fEast < west || fWest > east || fNorth < south || fSouth > north)`. -/
def bboxIntersects (f q : Bbox4) : Bool :=
  !(f.east < q.west || f.west > q.east || f.north < q.south || f.south > q.north)

/-- The filter predicate of `searchByExtent` (`EptSearcher.ts:211-216`):
features with no bbox are dropped (`if (!f.bbox) return false`), others are
kept when their bbox intersects the query bbox. -/
def featureMatches (q : Bbox4) (f : EptFeature) : Bool :=
  match f.bbox with
  | none => false
  | some fb => bboxIntersects fb q

/-- The order imposed by the sort comparator
`(a, b) => (b.properties.count ?? 0) - (a.properties.count ?? 0)`
(`EptSearcher.ts:220`): `a` may stay before `b` exactly when the
comparator is `≤ 0`, i.e. `b.count ≤ a.count` (descending point count). -/
abbrev countDesc (a b : EptFeature) : Prop := b.count ≤ a.count

instance : IsTotal EptFeature countDesc := ⟨fun a b => le_total b.count a.count⟩

instance : IsTrans EptFeature countDesc := ⟨fun _ _ _ h₁ h₂ => le_trans h₂ h₁⟩

/-- `EptSearcher.searchByExtent` (`EptSearcher.ts:203-228`) with the loaded
feature array passed explicitly: filter by bbox intersection, stable-sort
by descending point count (JavaScript `Array.prototype.sort` is stable;
`insertionSort` is the stable sort realising the same comparator), take
the first `limit`, and report the pre-truncation match count. -/
def searchByExtent (features : List EptFeature) (q : Bbox4) (limit : Nat) :
    EptSearchResponse :=
  let matching := features.filter (featureMatches q)
  let sorted := List.insertionSort countDesc matching
  { features := sorted.take limit
    numberMatched := matching.length }

end EptSearcher

/-- C8: the bbox intersection test used by `EptSearcher.searchByExtent` is
symmetric: `intersects(A,B) = intersects(B,A)` for all bounding boxes. -/
theorem bboxIntersects_symm (a b : Bbox4) :
    EptSearcher.bboxIntersects a b = EptSearcher.bboxIntersects b a := by
  simp only [EptSearcher.bboxIntersects, gt_iff_lt]
  have h : ∀ p q r s : Bool,
      (!(p || q || r || s)) = (!(q || p || s || r)) := by decide
  exact h _ _ _ _

/-- C2: `EptSearcher.searchByExtent` returns exactly the features whose
stored bbox intersects the query bbox, sorted by point count descending,
truncated to at most `limit`; `numberMatched` is the pre-truncation count
of intersecting features. -/
theorem searchByExtent_spec (features : List EptFeature) (q : Bbox4)
    (limit : Nat) :
    (EptSearcher.searchByExtent features q limit).numberMatched
        = (features.filter (EptSearcher.featureMatches q)).length
      ∧ (EptSearcher.searchByExtent features q limit).features.length ≤ limit
      ∧ (EptSearcher.searchByExtent features q limit).features.Sorted
          EptSearcher.countDesc
      ∧ List.Subperm (EptSearcher.searchByExtent features q limit).features
          (features.filter (EptSearcher.featureMatches q))
      ∧ ((features.filter (EptSearcher.featureMatches q)).length ≤ limit →
          List.Perm (EptSearcher.searchByExtent features q limit).features
            (features.filter (EptSearcher.featureMatches q)))
      ∧ (∀ f ∈ (EptSearcher.searchByExtent features q limit).features,
          f ∈ features ∧ EptSearcher.featureMatches q f = true) := by
  refine ⟨rfl, ?_, ?_, ?_, ?_, ?_⟩
  · simp only [EptSearcher.searchByExtent]
    exact List.length_take limit _ ▸ min_le_left limit _
  · exact ((List.sorted_insertionSort EptSearcher.countDesc _).sublist
      (List.take_sublist _ _))
  · exact ((List.take_sublist _ _).subperm.trans
      (List.perm_insertionSort EptSearcher.countDesc _).subperm)
  · intro h
    have hlen : (List.insertionSort EptSearcher.countDesc
        (features.filter (EptSearcher.featureMatches q))).length ≤ limit := by
      simpa [(List.perm_insertionSort EptSearcher.countDesc _).length_eq]
        using h
    simpa [EptSearcher.searchByExtent, List.take_of_length_le hlen] using
      List.perm_insertionSort EptSearcher.countDesc
        (features.filter (EptSearcher.featureMatches q))
  · intro f hf
    have hf' : f ∈ features.filter (EptSearcher.featureMatches q) :=
      (List.perm_insertionSort EptSearcher.countDesc _).mem_iff.mp
        (List.mem_of_mem_take hf)
    exact ⟨(List.mem_filter.mp hf').1, (List.mem_filter.mp hf').2⟩

/-- A 4-component bbox as passed to `StacSearcher.search`; each JavaScript
number is `Option ℚ`, with `none` standing for a value with
`Number.isFinite(val) === false` (`NaN`, `±Infinity`). -/
structure JsBbox where
  west : Option ℚ
  south : Option ℚ
  east : Option ℚ
  north : Option ℚ

/-- A STAC asset: the code under verification reads only `href`
(the other optional members of the `StacAsset` interface are unused). -/
structure StacAsset where
  href : String

/-- The `assets` map of a STAC item, keyed by role: the code reads only the
`data` asset. -/
structure StacAssets where
  data : Option StacAsset

/-- The STAC item properties read by the code: `datetime`,
`'pc:count'` and `'pointcloud:count'`. -/
structure StacProperties where
  datetime : Option String
  pcCount : Option ℚ
  pointcloudCount : Option ℚ

/-- A STAC item bbox: 4 elements, or 6 with elevation
(`item.bbox.length === 6`). -/
inductive StacBbox where
  | four (w s e n : ℚ)
  | six (x0 x1 x2 x3 x4 x5 : ℚ)

/-- A STAC item (the members read by the code under verification). -/
structure StacItem where
  id : String
  geometry : Geometry
  bbox : StacBbox
  properties : StacProperties
  assets : StacAssets

/-- `StacSearcher._cachedToken`: token string plus its `msft:expiry`
as a millisecond timestamp (`Date.getTime()`). -/
structure CachedToken where
  token : String
  expiry : ℤ

/-- The parsed body of a successful token-endpoint response:
`{token, "msft:expiry"}`, the expiry as a millisecond timestamp. -/
structure TokenResponse where
  token : String
  expiry : ℤ

namespace StacSearcher

/-- The `safeValue` closure inside `StacSearcher._validateBbox`
(part_007): `if (!Number.isFinite(val)) return defaultVal;
return Math.max(min, Math.min(max, val))` — with `lo`/`hi` for the
shadowing-averse names of the `min`/`max` parameters. -/
def safeValue (val : Option ℚ) (defaultVal lo hi : ℚ) : ℚ :=
  match val with
  | none => defaultVal
  | some v => max lo (min hi v)

/-- `StacSearcher._validateBbox` (part_007): each component is passed
through `safeValue` with its own default and bounds —
`[safeValue(bbox[0], -180, -180, 180), safeValue(bbox[1], -90, -90, 90),
safeValue(bbox[2], 180, -180, 180), safeValue(bbox[3], 90, -90, 90)]`. -/
def validateBbox (b : JsBbox) : Bbox4 :=
  { west := safeValue b.west (-180) (-180) 180
    south := safeValue b.south (-90) (-90) 90
    east := safeValue b.east 180 (-180) 180
    north := safeValue b.north 90 (-90) 90 }

/-- The bbox-validation step of `StacSearcher.search` (part_007):
`if (validatedParams.bbox) validatedParams.bbox =
this._validateBbox(validatedParams.bbox)`.  A total function: no bbox can
make `search` reject during validation. -/
def requestBbox : Option JsBbox → Option Bbox4 :=
  Option.map validateBbox

/-- The 5-minute token reuse buffer of `_getSasToken`:
`5 * 60 * 1000` ms. -/
def sasBufferMs : ℤ := 5 * 60 * 1000

/-- The fetch branch of `_getSasToken` (part_007): a non-ok response
throws `Failed to get SAS token: ...` (here: the supplied error), a
successful one caches and returns `data.token`. -/
def fetchSasToken (result : Except String TokenResponse) :
    Except String (String × Option CachedToken) :=
  match result with
  | .error e => .error e
  | .ok d => .ok (d.token, some ⟨d.token, d.expiry⟩)

/-- `StacSearcher._getSasToken` (part_007) with the instance state and the
network outcome explicit: reuse the cached token while
`expiry - 5 min > now`, otherwise fetch a fresh one.  Returns the token
together with the updated `_cachedToken`. -/
def getSasToken (cached : Option CachedToken) (now : ℤ)
    (fetchResult : Except String TokenResponse) :
    Except String (String × Option CachedToken) :=
  match cached with
  | some ct =>
    if ct.expiry - sasBufferMs > now then .ok (ct.token, some ct)
    else fetchSasToken fetchResult
  | none => fetchSasToken fetchResult

/-- `asset.href.includes('?')` (part_007): whether the href already
contains a `?`, expressed as membership of the character in the string's
characters. -/
def hrefHasQuery (href : String) : Bool :=
  href.data.contains '?'

/-- `StacSearcher.getCopcUrl` (part_007): no `data` asset throws
`No data asset found for item <id>`; otherwise the SAS token is appended
with `?` or `&` depending on whether the href already has a query string,
and any token failure falls back to the unsigned href. -/
def getCopcUrl (item : StacItem) (cached : Option CachedToken) (now : ℤ)
    (fetchResult : Except String TokenResponse) :
    Except String String × Option CachedToken :=
  match item.assets.data with
  | none => (.error ("No data asset found for item " ++ item.id), cached)
  | some asset =>
    match getSasToken cached now fetchResult with
    | .ok (token, cached') =>
      (.ok (asset.href ++ (if hrefHasQuery asset.href then "&" else "?") ++ token),
        cached')
    | .error _ => (.ok asset.href, cached)

end StacSearcher

theorem safeValue_bounds (x : Option ℚ) (d lo hi : ℚ) (hd₁ : lo ≤ d)
    (hd₂ : d ≤ hi) (hlohi : lo ≤ hi) :
    lo ≤ StacSearcher.safeValue x d lo hi ∧
      StacSearcher.safeValue x d lo hi ≤ hi := by
  cases x with
  | none => exact ⟨hd₁, hd₂⟩
  | some q =>
    exact ⟨le_max_left _ _, max_le hlohi (min_le_left _ _)⟩

theorem safeValue_of_low {q lo hi : ℚ} (d : ℚ) (h : q ≤ lo) (hlohi : lo ≤ hi) :
    StacSearcher.safeValue (some q) d lo hi = lo := by
  simp only [StacSearcher.safeValue]
  rw [min_eq_right (le_trans h hlohi), max_eq_left h]

theorem safeValue_of_high {q lo hi : ℚ} (d : ℚ) (h : hi ≤ q) (hlohi : lo ≤ hi) :
    StacSearcher.safeValue (some q) d lo hi = hi := by
  simp only [StacSearcher.safeValue]
  rw [min_eq_left h, max_eq_right hlohi]

theorem safeValue_of_mem {q lo hi : ℚ} (d : ℚ) (h₁ : lo ≤ q) (h₂ : q ≤ hi) :
    StacSearcher.safeValue (some q) d lo hi = q := by
  simp only [StacSearcher.safeValue]
  rw [min_eq_right h₂, max_eq_right h₁]

theorem safeValue_le_safeValue (x y : Option ℚ) (lo hi : ℚ) (hlohi : lo ≤ hi)
    (h : ∀ q r, x = some q → y = some r → q ≤ r) :
    StacSearcher.safeValue x lo lo hi ≤ StacSearcher.safeValue y hi lo hi := by
  cases x with
  | none =>
    cases y with
    | none => exact hlohi
    | some r => exact le_max_left lo _
  | some q =>
    cases y with
    | none => exact max_le hlohi (min_le_left hi q)
    | some r =>
      exact max_le_max (le_refl lo) (min_le_min (le_refl hi) (h q r rfl rfl))

/-- C3 counterexample: `_validateBbox` clamps each component independently
and never reorders them, so the already-in-range bbox `[10, 0, 5, 1]`
(west 10 > east 5) survives validation with `west > east`. -/
theorem validateBbox_order_counterexample :
    ¬((StacSearcher.validateBbox
        { west := some 10, south := some 0, east := some 5, north := some 1 }).west
      ≤ (StacSearcher.validateBbox
        { west := some 10, south := some 0, east := some 5, north := some 1 }).east) := by
  norm_num [StacSearcher.validateBbox, StacSearcher.safeValue]

/-- C3 amended: after validation `west ≤ east` and `south ≤ north` hold
whenever every pair of finite input components is already so ordered
(non-finite components are replaced by the world-extent defaults, which
preserve the order); an input whose finite components are out of order is
only clamped component-wise and keeps `west > east` (resp.
`south > north`). -/
theorem validateBbox_order_amended (b : JsBbox)
    (hwe : ∀ w e, b.west = some w → b.east = some e → w ≤ e)
    (hsn : ∀ s n, b.south = some s → b.north = some n → s ≤ n) :
    (StacSearcher.validateBbox b).west ≤ (StacSearcher.validateBbox b).east ∧
      (StacSearcher.validateBbox b).south ≤ (StacSearcher.validateBbox b).north :=
  ⟨safeValue_le_safeValue b.west b.east (-180) 180 (by norm_num) hwe,
    safeValue_le_safeValue b.south b.north (-90) 90 (by norm_num) hsn⟩

/-- Witness for the amended C3 at the concrete bbox
`[-123, 44, NaN, 45]`. -/
theorem validateBbox_order_amended_witness :
    (StacSearcher.validateBbox
        { west := some (-123), south := some 44, east := none, north := some 45 }).west
      ≤ (StacSearcher.validateBbox
        { west := some (-123), south := some 44, east := none, north := some 45 }).east ∧
    (StacSearcher.validateBbox
        { west := some (-123), south := some 44, east := none, north := some 45 }).south
      ≤ (StacSearcher.validateBbox
        { west := some (-123), south := some 44, east := none, north := some 45 }).north :=
  validateBbox_order_amended _
    (fun _ _ _ he => nomatch he)
    (fun s n hs hn => by
      injection hs with hs
      injection hn with hn
      subst hs
      subst hn
      norm_num)

/-- C4: validation never rejects — `requestBbox` is a total function whose
result on any supplied bbox is `validateBbox` of it — and `validateBbox`
keeps every component within `[-180,180]` longitude and `[-90,90]`
latitude, passes in-range values through, clamps finite out-of-range
values to the nearest bound, and replaces non-finite components by the
world-extent defaults `(-180, -90, 180, 90)`. -/
theorem validateBbox_clamp_spec (b : JsBbox) :
    (StacSearcher.requestBbox (some b) = some (StacSearcher.validateBbox b))
    ∧ ((-180 ≤ (StacSearcher.validateBbox b).west
          ∧ (StacSearcher.validateBbox b).west ≤ 180)
        ∧ (-90 ≤ (StacSearcher.validateBbox b).south
          ∧ (StacSearcher.validateBbox b).south ≤ 90)
        ∧ (-180 ≤ (StacSearcher.validateBbox b).east
          ∧ (StacSearcher.validateBbox b).east ≤ 180)
        ∧ (-90 ≤ (StacSearcher.validateBbox b).north
          ∧ (StacSearcher.validateBbox b).north ≤ 90))
    ∧ ((b.west = none → (StacSearcher.validateBbox b).west = -180)
        ∧ (b.south = none → (StacSearcher.validateBbox b).south = -90)
        ∧ (b.east = none → (StacSearcher.validateBbox b).east = 180)
        ∧ (b.north = none → (StacSearcher.validateBbox b).north = 90))
    ∧ (∀ q, b.west = some q →
        (q ≤ -180 → (StacSearcher.validateBbox b).west = -180)
        ∧ (180 ≤ q → (StacSearcher.validateBbox b).west = 180)
        ∧ (-180 ≤ q → q ≤ 180 → (StacSearcher.validateBbox b).west = q))
    ∧ (∀ q, b.south = some q →
        (q ≤ -90 → (StacSearcher.validateBbox b).south = -90)
        ∧ (90 ≤ q → (StacSearcher.validateBbox b).south = 90)
        ∧ (-90 ≤ q → q ≤ 90 → (StacSearcher.validateBbox b).south = q))
    ∧ (∀ q, b.east = some q →
        (q ≤ -180 → (StacSearcher.validateBbox b).east = -180)
        ∧ (180 ≤ q → (StacSearcher.validateBbox b).east = 180)
        ∧ (-180 ≤ q → q ≤ 180 → (StacSearcher.validateBbox b).east = q))
    ∧ (∀ q, b.north = some q →
        (q ≤ -90 → (StacSearcher.validateBbox b).north = -90)
        ∧ (90 ≤ q → (StacSearcher.validateBbox b).north = 90)
        ∧ (-90 ≤ q → q ≤ 90 → (StacSearcher.validateBbox b).north = q)) := by
  refine ⟨rfl, ⟨?_, ?_, ?_, ?_⟩, ⟨?_, ?_, ?_, ?_⟩, ?_, ?_, ?_, ?_⟩
  · exact safeValue_bounds b.west (-180) (-180) 180 (by norm_num) (by norm_num)
      (by norm_num)
  · exact safeValue_bounds b.south (-90) (-90) 90 (by norm_num) (by norm_num)
      (by norm_num)
  · exact safeValue_bounds b.east 180 (-180) 180 (by norm_num) (by norm_num)
      (by norm_num)
  · exact safeValue_bounds b.north 90 (-90) 90 (by norm_num) (by norm_num)
      (by norm_num)
  · intro h
    simp [StacSearcher.validateBbox, h, StacSearcher.safeValue]
  · intro h
    simp [StacSearcher.validateBbox, h, StacSearcher.safeValue]
  · intro h
    simp [StacSearcher.validateBbox, h, StacSearcher.safeValue]
  · intro h
    simp [StacSearcher.validateBbox, h, StacSearcher.safeValue]
  · intro q hq
    refine ⟨fun h => ?_, fun h => ?_, fun h₁ h₂ => ?_⟩ <;>
      simp only [StacSearcher.validateBbox] <;> rw [hq]
    · exact safeValue_of_low _ h (by norm_num)
    · exact safeValue_of_high _ h (by norm_num)
    · exact safeValue_of_mem _ h₁ h₂
  · intro q hq
    refine ⟨fun h => ?_, fun h => ?_, fun h₁ h₂ => ?_⟩ <;>
      simp only [StacSearcher.validateBbox] <;> rw [hq]
    · exact safeValue_of_low _ h (by norm_num)
    · exact safeValue_of_high _ h (by norm_num)
    · exact safeValue_of_mem _ h₁ h₂
  · intro q hq
    refine ⟨fun h => ?_, fun h => ?_, fun h₁ h₂ => ?_⟩ <;>
      simp only [StacSearcher.validateBbox] <;> rw [hq]
    · exact safeValue_of_low _ h (by norm_num)
    · exact safeValue_of_high _ h (by norm_num)
    · exact safeValue_of_mem _ h₁ h₂
  · intro q hq
    refine ⟨fun h => ?_, fun h => ?_, fun h₁ h₂ => ?_⟩ <;>
      simp only [StacSearcher.validateBbox] <;> rw [hq]
    · exact safeValue_of_low _ h (by norm_num)
    · exact safeValue_of_high _ h (by norm_num)
    · exact safeValue_of_mem _ h₁ h₂

/-- Witness for C4 at the bbox `[200, NaN, -200, 50]`: the over-range west
clamps to 180, the non-finite south defaults to -90, the under-range east
clamps to -180, and the in-range north passes through. -/
theorem validateBbox_clamp_spec_witness :
    (StacSearcher.validateBbox
        { west := some 200, south := none, east := some (-200), north := some 50 }).west
        = 180
    ∧ (StacSearcher.validateBbox
        { west := some 200, south := none, east := some (-200), north := some 50 }).south
        = -90
    ∧ (StacSearcher.validateBbox
        { west := some 200, south := none, east := some (-200), north := some 50 }).east
        = -180
    ∧ (StacSearcher.validateBbox
        { west := some 200, south := none, east := some (-200), north := some 50 }).north
        = 50 :=
  ⟨((validateBbox_clamp_spec _).2.2.2.1 200 rfl).2.1 (by norm_num),
    (validateBbox_clamp_spec _).2.2.1.2.1 rfl,
    ((validateBbox_clamp_spec _).2.2.2.2.2.1 (-200) rfl).1 (by norm_num),
    ((validateBbox_clamp_spec _).2.2.2.2.2.2 50 rfl).2.2 (by norm_num) (by norm_num)⟩

/-- C1: `getCopcUrl` rejects exactly when the item has no `data` asset —
with the message naming the item's id — and otherwise always resolves:
with the signed href when the SAS token is obtained, and with the
unsigned href (the token error is not propagated) when it is not. -/
theorem getCopcUrl_resolution (item : StacItem) (cached : Option CachedToken)
    (now : ℤ) (fetchResult : Except String TokenResponse) :
    (item.assets.data = none →
      (StacSearcher.getCopcUrl item cached now fetchResult).1
        = Except.error ("No data asset found for item " ++ item.id))
    ∧ (∀ a, item.assets.data = some a →
        (∃ u, (StacSearcher.getCopcUrl item cached now fetchResult).1
          = Except.ok u)
        ∧ (∀ t tc,
            StacSearcher.getSasToken cached now fetchResult
              = Except.ok (t, tc) →
            (StacSearcher.getCopcUrl item cached now fetchResult).1
              = Except.ok
                  (a.href
                    ++ (if StacSearcher.hrefHasQuery a.href then "&" else "?")
                    ++ t))
        ∧ (∀ e,
            StacSearcher.getSasToken cached now fetchResult
              = Except.error e →
            (StacSearcher.getCopcUrl item cached now fetchResult).1
              = Except.ok a.href)) := by
  constructor
  · intro h
    simp [StacSearcher.getCopcUrl, h]
  · intro a ha
    refine ⟨?_, fun t tc hT => ?_, fun e hT => ?_⟩
    · rcases hT : StacSearcher.getSasToken cached now fetchResult with e | ⟨t, tc⟩
      · exact ⟨a.href, by simp [StacSearcher.getCopcUrl, ha, hT]⟩
      · exact ⟨a.href ++ (if StacSearcher.hrefHasQuery a.href then "&" else "?") ++ t,
          by simp [StacSearcher.getCopcUrl, ha, hT]⟩
    · simp [StacSearcher.getCopcUrl, ha, hT]
    · simp [StacSearcher.getCopcUrl, ha, hT]

/-- The asset of the sample STAC item used by the witnesses. -/
def sampleAsset : StacAsset := ⟨"https://host/f.copc.laz"⟩

/-- A sample STAC item with a `data` asset. -/
def sampleStacItem : StacItem :=
  { id := "test-item"
    geometry := ⟨none⟩
    bbox := .four (-123) 44 (-122) 45
    properties :=
      { datetime := some "2020-01-01T00:00:00Z"
        pcCount := none
        pointcloudCount := none }
    assets := ⟨some sampleAsset⟩ }

/-- Witness for C1: a failing token endpoint (HTTP 500) still resolves
with the unsigned asset href. -/
theorem getCopcUrl_resolution_witness :
    (StacSearcher.getCopcUrl sampleStacItem none 0
        (Except.error "Failed to get SAS token: 500")).1
      = Except.ok "https://host/f.copc.laz" :=
  ((getCopcUrl_resolution sampleStacItem none 0
      (Except.error "Failed to get SAS token: 500")).2
    sampleAsset rfl).2.2 "Failed to get SAS token: 500" rfl

/-- C10: with a `data` asset and a successfully obtained token,
`getCopcUrl` appends the token with `&` when the href already contains
`?`, and with `?` otherwise. -/
theorem getCopcUrl_separator (item : StacItem) (a : StacAsset)
    (cached : Option CachedToken) (now : ℤ)
    (fetchResult : Except String TokenResponse) (t : String)
    (tc : Option CachedToken)
    (hA : item.assets.data = some a)
    (hT : StacSearcher.getSasToken cached now fetchResult = Except.ok (t, tc)) :
    (StacSearcher.hrefHasQuery a.href = true →
      (StacSearcher.getCopcUrl item cached now fetchResult).1
        = Except.ok (a.href ++ "&" ++ t))
    ∧ (StacSearcher.hrefHasQuery a.href = false →
      (StacSearcher.getCopcUrl item cached now fetchResult).1
        = Except.ok (a.href ++ "?" ++ t)) := by
  constructor <;> intro hq <;> simp [StacSearcher.getCopcUrl, hA, hT, hq]

/-- A sample STAC item whose asset href already carries a query string. -/
def sampleStacItemQuery : StacItem :=
  { sampleStacItem with assets := ⟨some ⟨"https://host/f.copc.laz?v=1"⟩⟩ }

/-- Witness for C10: an href that already contains `?` gets the token
appended with `&`. -/
theorem getCopcUrl_separator_witness :
    (StacSearcher.getCopcUrl sampleStacItemQuery none 0
        (Except.ok ⟨"sig=xxx", 9999⟩)).1
      = Except.ok ("https://host/f.copc.laz?v=1" ++ "&" ++ "sig=xxx") :=
  (getCopcUrl_separator sampleStacItemQuery ⟨"https://host/f.copc.laz?v=1"⟩
      none 0 (Except.ok ⟨"sig=xxx", 9999⟩) "sig=xxx"
      (some ⟨"sig=xxx", 9999⟩) rfl rfl).1 (by decide)

/-- The unified search item of `converters.ts`: identifier, geometry,
4-element bbox (`none` encodes the degenerate all-infinite bbox the
source produces for a geometry with no coordinate pair), the normalized
properties bag, the `sourceType` tag and the back-reference to the
original source item. -/
structure UnifiedSearchItem where
  id : String
  geometry : Geometry
  bbox : Option Bbox4
  name : String
  pointCount : Option ℚ
  datetime : Option String
  url : Option String
  sourceType : String
  originalItem : StacItem ⊕ EptFeature

/-- `s.replace(/^P/, '')` for a literal prefix pattern `P`: remove the
leading occurrence if the string starts with it, otherwise leave the
string unchanged. -/
def dropLead (p s : String) : String :=
  if s.startsWith p then s.drop p.length else s

/-- The bbox normalization of `stacToUnified` (converters.ts:12-15):
`item.bbox.length === 6 ? [bbox[0], bbox[1], bbox[3], bbox[4]] : bbox`. -/
def stacBboxTo4 : StacBbox → Bbox4
  | .four w s e n => ⟨w, s, e, n⟩
  | .six x0 x1 _ x3 x4 _ => ⟨x0, x1, x3, x4⟩

/-- `stacToUnified` (converters.ts:10-38). -/
def stacToUnified (item : StacItem) : UnifiedSearchItem :=
  { id := item.id
    geometry := item.geometry
    bbox := some (stacBboxTo4 item.bbox)
    name := dropLead "3DEP_" (dropLead "USGS_LPC_" item.id)
    pointCount := item.properties.pcCount <|> item.properties.pointcloudCount
    datetime := item.properties.datetime
    url := none
    sourceType := "copc"
    originalItem := Sum.inl item }

mutual

/-- The leaf positions reached by the `traverse` closure of
`getBboxFromGeometry` (part_005), in traversal order. -/
def collectPoints : CoordTree → List (ℚ × ℚ)
  | .point x y => [(x, y)]
  | .arr cs => collectPointsList cs

/-- `collectPoints` mapped over a list of children
(`coords.forEach(traverse)`). -/
def collectPointsList : List CoordTree → List (ℚ × ℚ)
  | [] => []
  | c :: cs => collectPoints c ++ collectPointsList cs

end

/-- `getBboxFromGeometry` (part_005): fold every leaf position into
min/max accumulators seeded at `±Infinity`.  `none` encodes the untouched
seeds (no `coordinates` member, or no leaf position): the source then
returns the degenerate `[Infinity, Infinity, -Infinity, -Infinity]`. -/
def getBboxFromGeometry (g : Geometry) : Option Bbox4 :=
  match g.coordinates with
  | none => none
  | some t =>
    match collectPoints t with
    | [] => none
    | (x, y) :: ps =>
      some (ps.foldl
        (fun (b : Bbox4) (p : ℚ × ℚ) =>
          ⟨min b.west p.1, min b.south p.2, max b.east p.1, max b.north p.2⟩)
        ⟨x, y, x, y⟩)

/-- `eptToUnified` (converters.ts:46-64): the feature's own bbox if
present, else one derived from its geometry; the feature `name` doubles
as the id; `datetime` is always absent. -/
def eptToUnified (f : EptFeature) : UnifiedSearchItem :=
  { id := f.name
    geometry := f.geometry
    bbox :=
      match f.bbox with
      | some b => some b
      | none => getBboxFromGeometry f.geometry
    name := f.name
    pointCount := some f.count
    datetime := none
    url := some f.url
    sourceType := "ept"
    originalItem := Sum.inr f }

/-- C7 counterexample: converting a STAC item yields the source tag
`"copc"`, not `"stac"` — shown at a concrete item. -/
theorem sourceTag_counterexample :
    ¬((stacToUnified sampleStacItem).sourceType = "stac") := by
  decide

/-- C7 amended: every unified item converted from a STAC item carries the
source tag `"copc"`, and every unified item converted from a
spatial-index feature carries the source tag `"ept"`. -/
theorem sourceTag_amended :
    (∀ item : StacItem, (stacToUnified item).sourceType = "copc")
    ∧ (∀ f : EptFeature, (eptToUnified f).sourceType = "ept") :=
  ⟨fun _ => rfl, fun _ => rfl⟩

/-- C9: converting a STAC item and reading `originalItem` back yields the
source item itself, unaltered. -/
theorem stacToUnified_originalItem_roundtrip (item : StacItem) :
    (stacToUnified item).originalItem = Sum.inl item :=
  rfl

/-- `CacheEntry<EptFeature[]>` (types.ts): payload, creation timestamp and
absolute expiration timestamp, in milliseconds. -/
structure CacheEntry where
  data : List EptFeature
  timestamp : ℤ
  expiresAt : ℤ

/-- The `localStorage` slot for `CACHE_KEY` together with an availability
flag: `ok = false` models storage whose operations throw (quota exceeded,
disabled storage); the JSON stringify/parse round trip is the identity in
the model. -/
structure StorageState where
  entry : Option CacheEntry
  ok : Bool

namespace EptSearcher

/-- `localStorage.getItem(CACHE_KEY)`, which may throw. -/
def getItem (st : StorageState) : Except Unit (Option CacheEntry) :=
  if st.ok then .ok st.entry else .error ()

/-- `localStorage.setItem(CACHE_KEY, ...)`, which may throw. -/
def setItem (e : CacheEntry) (st : StorageState) : Except Unit StorageState :=
  if st.ok then .ok { st with entry := some e } else .error ()

/-- `localStorage.removeItem(CACHE_KEY)`, which may throw. -/
def removeItem (st : StorageState) : Except Unit StorageState :=
  if st.ok then .ok { st with entry := none } else .error ()

/-- `EptSearcher._getFromCache` (EptSearcher.ts:132-147): absent entry or
any storage exception yields `none`; an entry with
`Date.now() > entry.expiresAt` is removed and yields `none`; otherwise the
cached payload is returned. -/
def getFromCache (now : ℤ) (st : StorageState) :
    Option (List EptFeature) × StorageState :=
  match getItem st with
  | .error _ => (none, st)
  | .ok none => (none, st)
  | .ok (some entry) =>
    if now > entry.expiresAt then
      match removeItem st with
      | .ok st' => (none, st')
      | .error _ => (none, st)
    else
      (some entry.data, st)

/-- `EptSearcher._saveToCache` (EptSearcher.ts:152-163): store
`{data, timestamp: Date.now(), expiresAt: Date.now() + cacheDuration}`;
a storage exception is swallowed (`console.warn`) leaving the state
unchanged. -/
def saveToCache (features : List EptFeature) (now cacheDuration : ℤ)
    (st : StorageState) : StorageState :=
  match setItem ⟨features, now, now + cacheDuration⟩ st with
  | .ok st' => st'
  | .error _ => st

end EptSearcher

/-- C6: a cache read after a write returns the stored value while the time
has not passed `expiresAt = now + ttl`, returns `none` and deletes the
entry once it has, and storage failure degrades both operations to
no-ops: `put` leaves the state unchanged and `get` returns `none`. -/
theorem cache_roundtrip_spec (features : List EptFeature)
    (now dur now' : ℤ) (st : StorageState) :
    (st.ok = true → ¬ now + dur < now' →
      (EptSearcher.getFromCache now'
          (EptSearcher.saveToCache features now dur st)).1 = some features)
    ∧ (st.ok = true → now + dur < now' →
      (EptSearcher.getFromCache now'
          (EptSearcher.saveToCache features now dur st)).1 = none
      ∧ (EptSearcher.getFromCache now'
          (EptSearcher.saveToCache features now dur st)).2.entry = none)
    ∧ (st.ok = false →
      EptSearcher.saveToCache features now dur st = st
      ∧ (EptSearcher.getFromCache now' st).1 = none
      ∧ (EptSearcher.getFromCache now' st).2 = st) := by
  refine ⟨fun hok hfresh => ?_, fun hok hexp => ?_, fun hbad => ?_⟩
  · simp [EptSearcher.getFromCache, EptSearcher.saveToCache,
      EptSearcher.getItem, EptSearcher.setItem, EptSearcher.removeItem,
      hok, hfresh]
  · constructor <;>
      simp [EptSearcher.getFromCache, EptSearcher.saveToCache,
        EptSearcher.getItem, EptSearcher.setItem, EptSearcher.removeItem,
        hok, hexp]
  · refine ⟨?_, ?_, ?_⟩ <;>
      simp [EptSearcher.getFromCache, EptSearcher.saveToCache,
        EptSearcher.getItem, EptSearcher.setItem, EptSearcher.removeItem,
        hbad]

/-- Witness for C6 with `put` at time 0, TTL 10: a read at time 5 returns
the payload, a read at time 11 returns `none`, and a failing storage makes
`put` a no-op. -/
theorem cache_roundtrip_spec_witness :
    (EptSearcher.getFromCache 5
        (EptSearcher.saveToCache [] 0 10 ⟨none, true⟩)).1 = some []
    ∧ (EptSearcher.getFromCache 11
        (EptSearcher.saveToCache [] 0 10 ⟨none, true⟩)).1 = none
    ∧ EptSearcher.saveToCache [] 0 10 ⟨none, false⟩ = ⟨none, false⟩ :=
  ⟨(cache_roundtrip_spec [] 0 10 5 ⟨none, true⟩).1 rfl (by decide),
    ((cache_roundtrip_spec [] 0 10 11 ⟨none, true⟩).2.1 rfl (by decide)).1,
    ((cache_roundtrip_spec [] 0 10 0 ⟨none, false⟩).2.2 rfl).1⟩

/-- The result a caller of `_ensureLoaded` observes at call time: the
in-memory feature array returned synchronously, or a pending load promise
(identified by a serial number). -/
inductive EnsureResult where
  | ready (fs : List EptFeature)
  | pending (pid : Nat)

/-- The `EptSearcher` instance state relevant to load deduplication:
`_features`, `_loadPromise` (as the id of the in-flight promise), plus a
count of boundary-file fetches issued and a serial for fresh promise
ids. -/
structure LoaderState where
  features : Option (List EptFeature)
  loadPromise : Option Nat
  fetchCount : Nat
  nextPromiseId : Nat

namespace EptSearcher

/-- `EptSearcher._ensureLoaded` (EptSearcher.ts:180-194), the synchronous
step every caller (`searchByExtent`, `getAllFeatures`, `getCount`)
executes: resident features are returned at once; an in-flight load is
shared; otherwise a new load starts, whose synchronous prefix
(`_loadBoundaries` up to its first `await`, EptSearcher.ts:53-61) checks
the persistent cache and, on a miss, issues the one `fetch` of the
boundary file. -/
def ensureLoaded (cache : Option (List EptFeature)) (s : LoaderState) :
    EnsureResult × LoaderState :=
  match s.features with
  | some fs => (.ready fs, s)
  | none =>
    match s.loadPromise with
    | some pid => (.pending pid, s)
    | none =>
      (.pending s.nextPromiseId,
        { features := none
          loadPromise := some s.nextPromiseId
          fetchCount :=
            match cache with
            | some _ => s.fetchCount
            | none => s.fetchCount + 1
          nextPromiseId := s.nextPromiseId + 1 })

/-- The `.then` continuation of the load (EptSearcher.ts:186-190):
`this._features = features; this._loadPromise = null`. -/
def resolveLoad (fs : List EptFeature) (s : LoaderState) : LoaderState :=
  { s with features := some fs, loadPromise := none }

/-- `n` interleaved `_ensureLoaded` calls before the load resolves,
collecting what each caller observes. -/
def callsBeforeResolve (cache : Option (List EptFeature)) :
    Nat → LoaderState → List EnsureResult × LoaderState
  | 0, s => ([], s)
  | n + 1, s =>
    let step := ensureLoaded cache s
    let rest := callsBeforeResolve cache n step.2
    (step.1 :: rest.1, rest.2)

/-- A fresh `EptSearcher` instance: no features, no in-flight load, no
fetch issued yet. -/
def initLoader : LoaderState :=
  { features := none, loadPromise := none, fetchCount := 0, nextPromiseId := 0 }

end EptSearcher

theorem callsBeforeResolve_inflight (cache : Option (List EptFeature))
    (pid : Nat) (m : Nat) (s : LoaderState)
    (hf : s.features = none) (hp : s.loadPromise = some pid) :
    EptSearcher.callsBeforeResolve cache m s
      = (List.replicate m (.pending pid), s) := by
  induction m with
  | zero => simp [EptSearcher.callsBeforeResolve]
  | succ k ih =>
    simp [EptSearcher.callsBeforeResolve, EptSearcher.ensureLoaded, hf, hp, ih,
      List.replicate_succ]

/-- C5: `n ≥ 1` interleaved `_ensureLoaded` calls (from `searchByExtent`,
`getAllFeatures` or `getCount`) on a fresh instance with a cold persistent
cache issue exactly one boundary-file fetch, every caller observing the
same in-flight promise; once the load resolves, a further call returns the
in-memory features with no additional fetch. -/
theorem ensureLoaded_dedup (n : Nat) (hn : 1 ≤ n) (fs : List EptFeature)
    (laterCache : Option (List EptFeature)) :
    (EptSearcher.callsBeforeResolve none n EptSearcher.initLoader).1
        = List.replicate n (.pending 0)
    ∧ (EptSearcher.callsBeforeResolve none n EptSearcher.initLoader).2.fetchCount
        = 1
    ∧ (EptSearcher.ensureLoaded laterCache
        (EptSearcher.resolveLoad fs
          (EptSearcher.callsBeforeResolve none n EptSearcher.initLoader).2)).1
        = .ready fs
    ∧ (EptSearcher.ensureLoaded laterCache
        (EptSearcher.resolveLoad fs
          (EptSearcher.callsBeforeResolve none n EptSearcher.initLoader).2)).2.fetchCount
        = 1 := by
  obtain ⟨k, rfl⟩ : ∃ k, n = k + 1 :=
    ⟨n - 1, (Nat.succ_pred_eq_of_pos hn).symm⟩
  have hfull : EptSearcher.callsBeforeResolve none (k + 1) EptSearcher.initLoader
      = (List.replicate (k + 1) (.pending 0),
        { features := none, loadPromise := some 0, fetchCount := 1,
          nextPromiseId := 1 }) := by
    have h2 := callsBeforeResolve_inflight none 0 k
      { features := none, loadPromise := some 0, fetchCount := 1,
        nextPromiseId := 1 } rfl rfl
    simp [EptSearcher.callsBeforeResolve, EptSearcher.ensureLoaded,
      EptSearcher.initLoader, h2, List.replicate_succ]
  refine ⟨?_, ?_, ?_, ?_⟩ <;>
    simp [hfull, EptSearcher.resolveLoad, EptSearcher.ensureLoaded]

/-- Witness for C5 at `n = 3`. -/
theorem ensureLoaded_dedup_witness :
    (EptSearcher.callsBeforeResolve none 3 EptSearcher.initLoader).2.fetchCount
        = 1
    ∧ (EptSearcher.callsBeforeResolve none 3 EptSearcher.initLoader).1
        = List.replicate 3 (.pending 0) :=
  ⟨(ensureLoaded_dedup 3 (by decide) [] none).2.1,
    (ensureLoaded_dedup 3 (by decide) [] none).1⟩

/-- Sample loaded EPT features for the C2 witness: two features
intersecting the sample query (with point counts 100 and 500) and one
disjoint from it. -/
def sampleFeatures : List EptFeature :=
  [{ name := "A", count := 100, url := "u-a", geometry := ⟨none⟩,
      bbox := some ⟨-123, 44, -122, 45⟩ },
    { name := "B", count := 500, url := "u-b", geometry := ⟨none⟩,
      bbox := some ⟨-124, 44, -122, 45⟩ },
    { name := "C", count := 7, url := "u-c", geometry := ⟨none⟩,
      bbox := some ⟨10, 10, 11, 11⟩ }]

/-- The sample query bbox for the C2 witness. -/
def sampleQuery : Bbox4 := ⟨-123, 44, -122, 45⟩

/-- Witness for C2 at the sample features with limit 5. -/
theorem searchByExtent_spec_witness :
    (EptSearcher.searchByExtent sampleFeatures sampleQuery 5).numberMatched
        = (sampleFeatures.filter (EptSearcher.featureMatches sampleQuery)).length
    ∧ List.Perm (EptSearcher.searchByExtent sampleFeatures sampleQuery 5).features
        (sampleFeatures.filter (EptSearcher.featureMatches sampleQuery)) :=
  ⟨(searchByExtent_spec sampleFeatures sampleQuery 5).1,
    (searchByExtent_spec sampleFeatures sampleQuery 5).2.2.2.2.1 (by decide)⟩
